import Mathlib

/-!
Shallow embedding of the doral-courts acquisition pipeline:

* `html_extractor.py` — `TimeSlot`, `Court`,
  `CourtAvailabilityHTMLExtractor.parse_court_data` and
  `CourtAvailabilityHTMLExtractor._extract_time_slots`;
* `core/scraper.py` — `Scraper._initialize_session`, `Scraper._get_csrf_token`,
  `Scraper._build_search_params`, `Scraper.fetch_courts_with_html`.

HTML documents are modelled structurally: only the attributes and elements the
extractor actually reads are represented (tag classes, `data-title`,
`data-tooltip`, stripped text, nested `span` texts).  Python strings are Lean
`String`s; Python's substring operator `needle in hay` is `pyInStr`;
`str.split(sep, 1)` is `splitFirst` (a left-to-right scan for the first
occurrence of the separator, exactly Python's semantics); `str.strip()` is
`pyStrip`; `str.lower()` is `pyLower`; `int(s)` is `pyInt`.
-/

namespace Doral

/-- Python `needle in hay` on strings: `needle` occurs as a contiguous
substring of `hay`. -/
def pyInStr (needle hay : String) : Bool :=
  hay.data.tails.any (fun t => needle.data.isPrefixOf t)

/-- Python `s.split(sep, 1)` when `sep` occurs in `s`: scan left to right for
the first occurrence of `sep`; return the part before it and the part after
it.  `none` when `sep` does not occur (Python would return `[s]`). -/
def splitFirst (sep : List Char) : List Char → Option (List Char × List Char)
  | [] => if sep.isPrefixOf ([] : List Char) then some ([], []) else none
  | c :: rest =>
    if sep.isPrefixOf (c :: rest) then some ([], (c :: rest).drop sep.length)
    else (splitFirst sep rest).map (fun ps => (c :: ps.1, ps.2))

/-- Python truthiness of a string: non-empty. -/
def pyTruthyStr (s : String) : Bool := s ≠ ""

/-- Drop leading whitespace characters. -/
def dropLeadingWs : List Char → List Char
  | [] => []
  | c :: rest => if c.isWhitespace then dropLeadingWs rest else c :: rest

/-- Python `s.strip()`: remove leading and trailing whitespace. -/
def pyStrip (s : String) : String :=
  String.mk ((dropLeadingWs ((dropLeadingWs s.data).reverse)).reverse)

/-- Python `s.lower()` (over the characters the portal emits). -/
def pyLower (s : String) : String := String.mk (s.data.map Char.toLower)

/-- Value of a non-empty all-digit character list. -/
def digitsVal : List Char → Option Nat
  | [] => none
  | cs => cs.foldl (fun acc? c =>
      match acc? with
      | none => none
      | some acc => if c.isDigit then some (acc * 10 + (c.toNat - 48)) else none)
      (some 0)

/-- Python `int(s)` as used on a pagination attribute (optional surrounding
whitespace and sign, then decimal digits); failure is `none`. -/
def pyInt (s : String) : Option Int :=
  match (dropLeadingWs ((dropLeadingWs s.data).reverse)).reverse with
  | '-' :: rest => (digitsVal rest).map (fun n => -(n : Int))
  | '+' :: rest => (digitsVal rest).map (fun n => (n : Int))
  | cs => (digitsVal cs).map (fun n => (n : Int))

/-! ## Data model (`html_extractor.py` dataclasses) -/

/-- The `TimeSlot` dataclass: one bookable interval. -/
structure TimeSlot where
  start_time : String
  end_time : String
  status : String
  deriving DecidableEq, Repr

/-- The `Court` dataclass: one court's availability record for one date.
`price: str = None` is modelled as `Option String`. -/
structure Court where
  name : String
  sport_type : String
  location : String
  capacity : String
  availability_status : String
  date : String
  time_slots : List TimeSlot
  price : Option String
  deriving DecidableEq, Repr

/-! ## Structural HTML model

Only what the extractor reads is modelled.  `get_text(strip=True)` results are
stored pre-stripped in the `text` fields, matching how BeautifulSoup hands the
extractor its strings. -/

/-- An `<a class="cart-button">` element inside a cart-blocks cell.
`spans` holds the stripped texts of its nested `<span>` elements in document
order (`find_all('span')`). -/
structure CartButton where
  classes : List String
  tooltip : String
  text : String
  spans : List String
  deriving DecidableEq, Repr

/-- A `<span class="dateblock">` element; `tooltip` is its `data-tooltip`
attribute when present. -/
structure Dateblock where
  tooltip : Option String
  deriving DecidableEq, Repr

/-- A `<td>` cell of a court/cart row. -/
structure Td where
  classes : List String
  dataTitle : Option String
  text : String
  dateblock : Option Dateblock
  cartButtons : List CartButton
  deriving DecidableEq, Repr

/-- A `<tr>` row. -/
structure Tr where
  tds : List Td
  deriving DecidableEq, Repr

/-- A `<button>` element used by the pagination logic
(`data-click-set-value` attribute, classes). -/
structure PageButton where
  clickSetValue : Option String
  classes : List String
  deriving DecidableEq, Repr

/-- A `<table>` element: its `id` attribute and its `<tbody>` rows
(`none` when the table has no tbody). -/
structure Table where
  id : Option String
  tbody : Option (List Tr)
  deriving DecidableEq, Repr

/-- A parsed document: its tables and its pagination buttons. -/
structure Soup where
  tables : List Table
  buttons : List PageButton
  deriving DecidableEq, Repr

/-- Whether `td` has a given CSS class. -/
def hasClass (c : String) (td : Td) : Bool := td.classes.contains c

/-- BeautifulSoup `soup.find_all('table', id='frwebsearch_output_table')`. -/
def findCourtTables (soup : Soup) : List Table :=
  soup.tables.filter (fun t => t.id == some "frwebsearch_output_table")

/-! ## `_extract_time_slots` -/

/-- The literal separator `" - "` of the time-range format. -/
def timeSep : List Char := [' ', '-', ' ']

/-- Lines 305–313 of `html_extractor.py`: `if ' - ' in time_range_text:`
split on the first `" - "` and strip both halves; else the whole stripped
text is the start time and the end time is empty. -/
def parseTimeRange (t : String) : String × String :=
  match splitFirst timeSep t.data with
  | some ps => (pyStrip (String.mk ps.1), pyStrip (String.mk ps.2))
  | none => (pyStrip t, "")

/-- Lines 291–292: `is_available = ('success' in button_classes and
'Book Now' in button_tooltip)`. -/
def isAvailableButton (b : CartButton) : Bool :=
  b.classes.contains "success" && pyInStr "Book Now" b.tooltip

/-- Lines 284–327, body of the per-button loop: classify the button, pick the
time-range text (button text when available, first nested span otherwise —
skipping the button when no span exists), parse the range, build the slot. -/
def parseButton (b : CartButton) : Option TimeSlot :=
  let is_available := isAvailableButton b
  let text? : Option String :=
    if is_available then some b.text
    else b.spans.head?
  match text? with
  | none => none
  | some time_range_text =>
    let se := parseTimeRange time_range_text
    let status := if is_available then "Available" else "Unavailable"
    some { start_time := se.1, end_time := se.2, status := status }

/-- Method `_extract_time_slots` (lines 267–335): from the row following a court row
(`find_next_sibling('tr')`), locate the first `td.cart-blocks` cell and parse
each of its cart-buttons; either element absent yields `[]`. -/
def extractTimeSlots (nextRow? : Option Tr) : List TimeSlot :=
  match nextRow? with
  | none => []
  | some nextRow =>
    match nextRow.tds.find? (hasClass "cart-blocks") with
    | none => []
    | some cartBlocks => cartBlocks.cartButtons.filterMap parseButton

/-! ## `parse_court_data` -/

/-- Lines 206–213: overall availability status from the slot list. -/
def deriveAvailability (slots : List TimeSlot) : String :=
  if !slots.isEmpty then
    if slots.any (fun s => s.status == "Available") then "Available"
    else "Fully Booked"
  else "No Schedule"

/-- BeautifulSoup `row.find('td', \x7b'data-title': title\x7d)`. -/
def findByTitle (row : Tr) (title : String) : Option Td :=
  row.tds.find? (fun td => td.dataTitle == some title)

/-- Lines 168–177: date from the `Date` cell's dateblock tooltip when present
and truthy, else the cell text, else today's date. -/
def extractDate (today : String) (row : Tr) : String :=
  match findByTitle row "Date" with
  | some dateCell =>
    match dateCell.dateblock with
    | some db =>
      match db.tooltip with
      | some t => if pyTruthyStr t then t else dateCell.text
      | none => dateCell.text
    | none => dateCell.text
  | none => today

/-- Lines 160–227, body of the per-row loop: reject rows with fewer than four
`label-cell` cells, then extract each field label-driven with its default. -/
def parseCourtRow (today : String) (row : Tr) (nextRow? : Option Tr) :
    Option Court :=
  let cells := row.tds.filter (hasClass "label-cell")
  if cells.length < 4 then none
  else
    let date := extractDate today row
    let name := match findByTitle row "Facility Description" with
      | some c => c.text | none => "Unknown Court"
    let location := match findByTitle row "Location Description" with
      | some c => c.text | none => "Unknown Location"
    let class_description := match findByTitle row "Class Description" with
      | some c => c.text | none => ""
    let sport_type :=
      if pyInStr "tennis" (pyLower class_description) ||
         pyInStr "tennis" (pyLower name) then "Tennis" else "Pickleball"
    let capacity := match findByTitle row "Capacity" with
      | some c => c.text | none => "N/A"
    let price := (findByTitle row "Price").map (fun c => c.text)
    let time_slots := extractTimeSlots nextRow?
    some { name := name, sport_type := sport_type, location := location,
           capacity := capacity,
           availability_status := deriveAvailability time_slots,
           date := date, time_slots := time_slots, price := price }

/-- A row is a cart-blocks (booking-control) row when it has a
`td.cart-blocks` cell; line 153 filters those out of the court rows.  The
source iterates the filtered rows but takes each court row's sibling from the
unfiltered tbody (`find_next_sibling`), which this recursion reproduces: each
row is handled together with the head of the remaining unfiltered rows. -/
def parseRows (today : String) : List Tr → List Court
  | [] => []
  | row :: rest =>
    if row.tds.any (hasClass "cart-blocks") then parseRows today rest
    else
      match parseCourtRow today row rest.head? with
      | some court => court :: parseRows today rest
      | none => parseRows today rest

/-- Lines 146–149: a table without a tbody is skipped. -/
def parseTable (today : String) (t : Table) : List Court :=
  match t.tbody with
  | none => []
  | some rows => parseRows today rows

/-- Method `parse_court_data` (lines 127–234): process every
`frwebsearch_output_table`; no such table yields `[]`. -/
def parse_court_data (today : String) (soup : Soup) : List Court :=
  (findCourtTables soup).flatMap (parseTable today)

/-- The `Court.time_slot` legacy property (lines 62–79): the
`"{available}/{total} available"` summary, or `"No time slots"`. -/
def timeSlotSummary (c : Court) : String :=
  if c.time_slots.isEmpty then "No time slots"
  else
    let available_count := (c.time_slots.filter
      (fun s => s.status == "Available")).length
    let total_count := c.time_slots.length
    toString available_count ++ "/" ++ toString total_count ++ " available"

/-! ## Scraper (`core/scraper.py`)

The network is modelled as a script of responses consumed in order: one
`InitResult` for the home-page request, then one `TokenResult` (the
per-page CSRF-token request made inside `_build_search_params`) and one
`PageResult` (the search request) per loop iteration.  An exhausted script
ends the loop with the state accumulated so far, exactly like the
`requests.RequestException` exit. -/

/-- Outcome of the home-page request in `_initialize_session`. -/
inductive InitResult
  | resp (status : Nat)
  | exn
  deriving DecidableEq, Repr

/-- Method `_initialize_session` (lines 105–135): any status below 500 is success;
an exception is failure. -/
def initializeSession : InitResult → Bool
  | .resp status => status < 500
  | .exn => false

/-- Outcome of the token-page request in `_get_csrf_token`.  On a response,
`csrfInput` is `soup.find("input", {"name": "_csrf_token"})`: `none` when the
input element is absent, `some v?` when present with `v?` its `value`
attribute. -/
inductive TokenResult
  | resp (status : Nat) (csrfInput : Option (Option String))
  | exn
  deriving DecidableEq, Repr

/-- Method `_get_csrf_token` (lines 139–164): the token only on a 200 response whose
page carries a `_csrf_token` input with a truthy value; the empty string in
every other situation. -/
def getCsrfToken : TokenResult → String
  | .resp status csrfInput =>
    if status == 200 then
      match csrfInput with
      | some (some v) => if pyTruthyStr v then v else ""
      | some none => ""
      | none => ""
    else ""
  | .exn => ""

/-- The params dict built by `_build_search_params` (lines 181–210). -/
structure SearchParams where
  action : String
  subAction : String
  csrf_token : String
  date : String
  begintime : String
  type : List String
  subtype : String
  category : String
  features : String
  keyword : String
  keywordoption : String
  blockstodisplay : String
  frheadcount : String
  primarycode : String
  features1 : String
  features2 : String
  features3 : String
  features4 : String
  features5 : String
  features6 : String
  features7 : String
  features8 : String
  display : String
  search : String
  page : String
  module : String
  multiselectlist_value : String
  frwebsearch_buttonsearch : String
  deriving DecidableEq, Repr

/-- Method `_build_search_params` (lines 166–213): a falsy (absent or empty) date
becomes today's date; the CSRF token is fetched fresh. -/
def buildSearchParams (date? : Option String) (today : String)
    (begin_time : String) (tok : TokenResult) (pageNum : Nat) : SearchParams :=
  let date := match date? with
    | some d => if pyTruthyStr d then d else today
    | none => today
  { action := "Start", subAction := "", csrf_token := getCsrfToken tok,
    date := date, begintime := begin_time,
    type := ["Pickleball Court", "Tennis Court"], subtype := "",
    category := "", features := "", keyword := "",
    keywordoption := "Match One", blockstodisplay := "50",
    frheadcount := "0", primarycode := "", features1 := "", features2 := "",
    features3 := "", features4 := "", features5 := "", features6 := "",
    features7 := "", features8 := "", display := "Detail", search := "yes",
    page := toString pageNum, module := "fr", multiselectlist_value := "",
    frwebsearch_buttonsearch := "yes" }

/-- Outcome of one search request: a response with its status, body text and
parsed document, or a `requests.RequestException`. -/
inductive PageResult
  | resp (status : Nat) (html : String) (soup : Soup)
  | exn
  deriving DecidableEq, Repr

/-- The loop state of `fetch_courts_with_html`: `all_courts`,
`all_html_content` and `last_request_urls` (request URLs are represented by
the params they were built from). -/
structure LoopState where
  courts : List Court
  html : List String
  reqs : List SearchParams
  deriving DecidableEq, Repr

/-- One iteration either leaves the `while` loop with a final state or
continues with an updated state. -/
inductive StepOut
  | halt (final : LoopState)
  | next (st : LoopState)
  deriving DecidableEq, Repr

/-- Lines 301–305: `len(set(new names) ∩ set(existing names))` — the number
of distinct names on this page that already appeared in the aggregate. -/
def dupCount (existingNames : List String) (courts : List Court) : Nat :=
  (((courts.map (fun c => c.name)).dedup).filter
    (fun n => existingNames.contains n)).length

/-- One iteration of the `while True` loop (lines 240–403).  The float test
`duplicate_count / len(courts) > 0.5` is the exact integer test
`2 * duplicate_count > len(courts)` (the quotient of two list lengths rounds
to a double ≤ 0.5 exactly when the rational is ≤ 1/2 at these magnitudes). -/
def fetchStep (today : String) (date? : Option String) (pageNum : Nat)
    (st : LoopState) : TokenResult × PageResult → StepOut
  | (tok, pres) =>
    let params := buildSearchParams date? today "08:00 am" tok pageNum
    match pres with
    | .exn => .halt st
    | .resp status html soup =>
      let st := { st with reqs := st.reqs ++ [params] }
      if status == 200 then
        let st := { st with html := st.html ++ [html] }
        let courts := parse_court_data today soup
        if courts.isEmpty then .halt st
        else
          let existingNames := st.courts.map (fun c => c.name)
          let duplicate_count := dupCount existingNames courts
          if duplicate_count > 0 ∧ pageNum > 1 ∧
              2 * duplicate_count > courts.length then .halt st
          else
            let new_courts := courts.filter
              (fun c => !(existingNames.contains c.name))
            let st := { st with courts := st.courts ++ new_courts }
            let next_page_button := soup.buttons.find?
              (fun b => b.clickSetValue == some (toString (pageNum + 1)))
            let last_page_button := soup.buttons.find?
              (fun b => b.classes.contains "paging__lastpage")
            match next_page_button, last_page_button with
            | none, none => .halt st
            | some _, _ => .next st
            | none, some lb =>
              match pyInt (lb.clickSetValue.getD "1") with
              | none => .halt st
              | some max_page =>
                if (pageNum : Int) ≥ max_page then .halt st else .next st
      else if status == 403 then .halt st
      else .halt st

/-- The `while True` loop over the scripted responses. -/
def fetchLoop (today : String) (date? : Option String) :
    List (TokenResult × PageResult) → Nat → LoopState → LoopState
  | [], _, st => st
  | p :: rest, pageNum, st =>
    match fetchStep today date? pageNum st p with
    | .halt final => final
    | .next st' => fetchLoop today date? rest (pageNum + 1) st'

/-- Line 409: the page-break join of the collected HTML bodies. -/
def pageBreakSep : String := "\n\n<!-- PAGE BREAK -->\n\n"

/-- Lines 411–431: the sport filter is applied only when courts were
retrieved and the filter string is truthy; case-insensitive exact match. -/
def applySportFilter (sport? : Option String) (courts : List Court) :
    List Court :=
  if courts.isEmpty then courts
  else
    match sport? with
    | some s =>
      if pyTruthyStr s then
        courts.filter (fun c => pyLower c.sport_type == pyLower s)
      else courts
    | none => courts

/-- The full outcome of one fetch invocation: the returned courts and
combined HTML, plus the `last_request_urls` instance state. -/
structure FetchResult where
  courts : List Court
  combinedHtml : String
  requestParams : List SearchParams
  deriving DecidableEq, Repr

/-- Method `fetch_courts_with_html` (lines 220–437): bootstrap, loop, finalize. -/
def fetchRun (today : String) (date? sport? : Option String)
    (init : InitResult) (script : List (TokenResult × PageResult)) :
    FetchResult :=
  if !(initializeSession init) then ⟨[], "", []⟩
  else
    let st := fetchLoop today date? script 1 ⟨[], [], []⟩
    ⟨applySportFilter sport? st.courts,
     String.intercalate pageBreakSep st.html, st.reqs⟩

/-- The tuple actually returned to the caller. -/
def fetch_courts_with_html (today : String) (date? sport? : Option String)
    (init : InitResult) (script : List (TokenResult × PageResult)) :
    List Court × String :=
  ((fetchRun today date? sport? init script).courts,
   (fetchRun today date? sport? init script).combinedHtml)

/-! ## Auxiliary notions used by the statements -/

/-- The loop state carried by a step outcome, whether the loop halts or
continues. -/
def stepState : StepOut → LoopState
  | .halt final => final
  | .next st => st

/-- Whether a step outcome continues the loop. -/
def stepIsNext : StepOut → Bool
  | .halt _ => false
  | .next _ => true

/-- The duplicate numerator as the spec phrases it for comparison with the
code: the number of *courts* on the page (with multiplicity) whose name
already appeared on an earlier page — the code instead counts *distinct*
names (`dupCount`). -/
def specDupCourtCount (existingNames : List String) (courts : List Court) :
    Nat :=
  (courts.filter (fun c => existingNames.contains c.name)).length

/-! ## Concrete fixtures for witnesses and counterexamples -/

/-- An available booking button. -/
def availBtn : CartButton :=
  { classes := ["cart-button", "success"], tooltip := "Book Now",
    text := "8:00 am - 9:00 am", spans := [] }

/-- An unavailable booking button with a time span. -/
def unavailBtn : CartButton :=
  { classes := ["cart-button", "error"], tooltip := "Unavailable",
    text := "", spans := [" 2:00 pm -  3:00 pm"] }

/-- An unavailable booking button with no nested span. -/
def noSpanBtn : CartButton :=
  { classes := ["cart-button", "error"], tooltip := "Unavailable",
    text := "ignored", spans := [] }

/-- A `label-cell` with a `data-title` attribute. -/
def lcell (title txt : String) : Td :=
  { classes := ["label-cell"], dataTitle := some title, text := txt,
    dateblock := none, cartButtons := [] }

/-- A court row with four labelled cells. -/
def courtRow (nm : String) : Tr :=
  { tds := [lcell "Date" "07/12/2025", lcell "Facility Description" nm,
            lcell "Location Description" "Doral Central Park",
            lcell "Class Description" "Tennis Court"] }

/-- A court row whose four label-cells carry no `data-title`, so every
labelled lookup falls back to its default. -/
def bareRow : Tr :=
  { tds := [{ classes := ["label-cell"], dataTitle := none, text := "x1",
              dateblock := none, cartButtons := [] },
            { classes := ["label-cell"], dataTitle := none, text := "x2",
              dateblock := none, cartButtons := [] },
            { classes := ["label-cell"], dataTitle := none, text := "x3",
              dateblock := none, cartButtons := [] },
            { classes := ["label-cell"], dataTitle := none, text := "x4",
              dateblock := none, cartButtons := [] }] }

/-- A booking-control row holding the given buttons. -/
def cartRow (btns : List CartButton) : Tr :=
  { tds := [{ classes := ["cart-blocks"], dataTitle := none, text := "",
              dateblock := none, cartButtons := btns }] }

/-- A result table around the given rows. -/
def mkSoup (rows : List Tr) (btns : List PageButton) : Soup :=
  { tables := [{ id := some "frwebsearch_output_table", tbody := some rows }],
    buttons := btns }

/-- One court named `DCP Tennis Court 1` with one available and one
unavailable slot. -/
def soupOne : Soup :=
  mkSoup [courtRow "DCP Tennis Court 1", cartRow [availBtn, unavailBtn]] []

/-- Page with the single court `A` and a next-page control for page 2. -/
def soupA : Soup :=
  mkSoup [courtRow "A"] [{ clickSetValue := some "2", classes := [] }]

/-- Page with courts `A`, `A`, `B` (a repeated name within one page). -/
def soupAAB : Soup := mkSoup [courtRow "A", courtRow "A", courtRow "B"] []

/-- Page with courts `A`, `B`. -/
def soupAB : Soup := mkSoup [courtRow "A", courtRow "B"] []

/-- Page with courts `A`, `A`. -/
def soupAA : Soup := mkSoup [courtRow "A", courtRow "A"] []

/-- A document whose only table has a different id. -/
def soupNoTables : Soup :=
  { tables := [{ id := some "other_table", tbody := some [courtRow "A"] }],
    buttons := [] }

/-- A successful token response. -/
def tokOk : TokenResult := .resp 200 (some (some "tok"))

/-- The court extracted from `courtRow "A"` when it is the last row. -/
def courtA : Court :=
  { name := "A", sport_type := "Tennis", location := "Doral Central Park",
    capacity := "N/A", availability_status := "No Schedule",
    date := "07/12/2025", time_slots := [], price := none }

/-- The court extracted from `bareRow` (all defaults). -/
def bareCourt : Court :=
  { name := "Unknown Court", sport_type := "Pickleball",
    location := "Unknown Location", capacity := "N/A",
    availability_status := "No Schedule", date := "01/01/2025",
    time_slots := [], price := none }

/-- The court extracted from `soupOne`. -/
def courtOne : Court :=
  { name := "DCP Tennis Court 1", sport_type := "Tennis",
    location := "Doral Central Park", capacity := "N/A",
    availability_status := "Available", date := "07/12/2025",
    time_slots := [{ start_time := "8:00 am", end_time := "9:00 am",
                     status := "Available" },
                   { start_time := "2:00 pm", end_time := "3:00 pm",
                     status := "Unavailable" }],
    price := none }

/-! # Theorems -/

/-- A successful first split decomposes the input around the separator. -/
theorem splitFirst_decomp (sep : List Char) :
    ∀ l p s, splitFirst sep l = some (p, s) → l = p ++ sep ++ s := by
  intro l
  induction l with
  | nil =>
    intro p s h
    unfold splitFirst at h
    split at h
    · rename_i hp
      obtain ⟨t, ht⟩ := List.isPrefixOf_iff_prefix.mp hp
      cases h
      obtain ⟨h1, -⟩ := List.append_eq_nil.mp ht
      simp [h1]
    · exact absurd h (by simp)
  | cons c rest ih =>
    intro p s h
    unfold splitFirst at h
    split at h
    · rename_i hp
      obtain ⟨t, ht⟩ := List.isPrefixOf_iff_prefix.mp hp
      cases h
      rw [← ht, List.drop_left]
      simp
    · rw [Option.map_eq_some'] at h
      obtain ⟨⟨q, s'⟩, hq, he⟩ := h
      cases he
      simp [ih _ _ hq]

/-- The first split succeeds on any list the separator starts. -/
theorem splitFirst_isSome_of_isPrefixOf (sep l : List Char)
    (h : sep.isPrefixOf l = true) : (splitFirst sep l).isSome := by
  cases l <;> unfold splitFirst <;> simp [h]

/-- When a decomposition exists, the first split succeeds. -/
theorem splitFirst_isSome (sep : List Char) :
    ∀ p s l, l = p ++ sep ++ s → (splitFirst sep l).isSome := by
  intro p
  induction p with
  | nil =>
    intro s l hl
    subst hl
    exact splitFirst_isSome_of_isPrefixOf sep _
      (List.isPrefixOf_iff_prefix.mpr ⟨s, by simp⟩)
  | cons c p' ih =>
    intro s l hl
    subst hl
    show (splitFirst sep (c :: (p' ++ sep ++ s))).isSome = true
    unfold splitFirst
    split
    · simp
    · rw [Option.isSome_map']
      exact ih s _ rfl

/-- The first split is at the earliest decomposition point. -/
theorem splitFirst_min (sep : List Char) :
    ∀ l p s, splitFirst sep l = some (p, s) →
      ∀ p' s', l = p' ++ sep ++ s' → p.length ≤ p'.length := by
  intro l
  induction l with
  | nil =>
    intro p s h p' s' he
    unfold splitFirst at h
    split at h
    · cases h; simp
    · exact absurd h (by simp)
  | cons c rest ih =>
    intro p s h p' s' he
    unfold splitFirst at h
    split at h
    · cases h; simp
    · rename_i hp
      rw [Option.map_eq_some'] at h
      obtain ⟨⟨q, sq⟩, hq, he2⟩ := h
      cases he2
      cases p' with
      | nil =>
        exfalso
        apply hp
        exact List.isPrefixOf_iff_prefix.mpr ⟨s', by simpa using he.symm⟩
      | cons c' p'' =>
        simp at he
        obtain ⟨hc, he3⟩ := he
        have := ih q sq hq p'' s' (he3.trans (List.append_assoc _ _ _).symm)
        simpa using this

/-- Any court built by `parseCourtRow` has its status derived from its own
slot list. -/
theorem parseCourtRow_status (today : String) (row : Tr) (sib : Option Tr)
    (c : Court) (h : parseCourtRow today row sib = some c) :
    c.availability_status = deriveAvailability c.time_slots := by
  by_cases hlen : (List.filter (hasClass "label-cell") row.tds).length < 4
  · simp [parseCourtRow, hlen] at h
  · simp only [parseCourtRow] at h
    rw [if_neg hlen] at h
    injection h with h2
    subst h2
    rfl

/-- Every court in `parseRows` output comes from `parseCourtRow` on some row
and sibling. -/
theorem mem_parseRows (today : String) :
    ∀ rows c, c ∈ parseRows today rows →
      ∃ row sib, parseCourtRow today row sib = some c := by
  intro rows
  induction rows with
  | nil => intro c hc; simp [parseRows] at hc
  | cons row rest ih =>
    intro c hc
    unfold parseRows at hc
    split at hc
    · exact ih c hc
    · rcases hpr : parseCourtRow today row rest.head? with _ | court
      · rw [hpr] at hc
        exact ih c hc
      · rw [hpr] at hc
        rcases List.mem_cons.mp hc with h1 | h2
        · exact ⟨row, rest.head?, by rw [hpr, h1]⟩
        · exact ih c h2
/-- Every extracted court comes from `parseCourtRow`. -/
theorem mem_parse_court_data (today : String) (soup : Soup) (c : Court)
    (hc : c ∈ parse_court_data today soup) :
    ∃ row sib, parseCourtRow today row sib = some c := by
  unfold parse_court_data at hc
  rw [List.mem_flatMap] at hc
  obtain ⟨t, -, hct⟩ := hc
  unfold parseTable at hct
  split at hct
  · simp at hct
  · exact mem_parseRows today _ c hct

/-- Characterization of `deriveAvailability`: the three-way rule. -/
theorem deriveAvailability_spec (l : List TimeSlot) :
    (deriveAvailability l = "No Schedule" ↔ l = []) ∧
    (deriveAvailability l = "Available" ↔ ∃ s ∈ l, s.status = "Available") ∧
    ((l ≠ [] ∧ ¬∃ s ∈ l, s.status = "Available") →
      deriveAvailability l = "Fully Booked") := by
  rcases l with _ | ⟨s0, rest⟩
  · refine ⟨by simp [deriveAvailability], by simp [deriveAvailability], ?_⟩
    rintro ⟨hne, -⟩
    exact absurd rfl hne
  · cases hany : (s0 :: rest).any (fun s => s.status == "Available") with
    | false =>
      have hd : deriveAvailability (s0 :: rest) = "Fully Booked" := by
        unfold deriveAvailability
        rw [hany]
        simp
      have hnone : ∀ s ∈ s0 :: rest, s.status ≠ "Available" := by
        intro s hs
        have := List.any_eq_false.mp hany s hs
        simpa using this
      refine ⟨?_, ?_, fun _ => hd⟩
      · rw [hd]
        constructor
        · intro hx
          exact absurd hx (by decide)
        · intro hx
          exact absurd hx (by simp)
      · rw [hd]
        constructor
        · intro hx
          exact absurd hx (by decide)
        · rintro ⟨s, hs, he⟩
          exact absurd he (hnone s hs)
    | true =>
      have hd : deriveAvailability (s0 :: rest) = "Available" := by
        unfold deriveAvailability
        rw [hany]
        simp
      obtain ⟨s, hs, he⟩ := List.any_eq_true.mp hany
      have he' : s.status = "Available" := by simpa using he
      refine ⟨?_, ?_, ?_⟩
      · rw [hd]
        constructor
        · intro hx
          exact absurd hx (by decide)
        · intro hx
          exact absurd hx (by simp)
      · rw [hd]
        exact iff_of_true rfl ⟨s, hs, he'⟩
      · rintro ⟨-, hno⟩
        exact absurd ⟨s, hs, he'⟩ hno

/-- C1: for every court produced by extraction, `availability_status` is the
deterministic three-way function of its `time_slots`: `"No Schedule"` iff the
slot list is empty, `"Available"` iff some slot has status `"Available"`,
and `"Fully Booked"` otherwise. -/
theorem claim_C1 (today : String) (soup : Soup) (c : Court)
    (hc : c ∈ parse_court_data today soup) :
    c.availability_status = deriveAvailability c.time_slots ∧
    (c.availability_status = "No Schedule" ↔ c.time_slots = []) ∧
    (c.availability_status = "Available" ↔
      ∃ s ∈ c.time_slots, s.status = "Available") ∧
    ((c.time_slots ≠ [] ∧ ¬∃ s ∈ c.time_slots, s.status = "Available") →
      c.availability_status = "Fully Booked") := by
  obtain ⟨row, sib, hrow⟩ := mem_parse_court_data today soup c hc
  have hst := parseCourtRow_status today row sib c hrow
  obtain ⟨h1, h2, h3⟩ := deriveAvailability_spec c.time_slots
  refine ⟨hst, ?_, ?_, fun h => ?_⟩
  · rw [hst]; exact h1
  · rw [hst]; exact h2
  · rw [hst]; exact h3 h

/-- C1 witness: the concrete court of `soupOne`. -/
theorem claim_C1_witness :
    courtOne.availability_status = deriveAvailability courtOne.time_slots :=
  (claim_C1 "01/01/2025" soupOne courtOne (by decide)).1

/-- Evaluation of `parseButton` by availability class. -/
theorem parseButton_eq (b : CartButton) :
    parseButton b =
      if isAvailableButton b then
        some { start_time := (parseTimeRange b.text).1,
               end_time := (parseTimeRange b.text).2, status := "Available" }
      else
        match b.spans.head? with
        | none => none
        | some t =>
          some { start_time := (parseTimeRange t).1,
                 end_time := (parseTimeRange t).2, status := "Unavailable" } := by
  unfold parseButton
  cases hav : isAvailableButton b <;> cases hsp : b.spans.head? <;>
    simp [hav, hsp]

/-- C5: a produced slot is `"Available"` iff the button carries the
`success` class and a tooltip containing `"Book Now"`; every other button
with a nested span yields a slot, and that slot's status is
`"Unavailable"`; a button produces no slot iff it is not available and has
no nested span. -/
theorem claim_C5 (b : CartButton) :
    (∀ sl, parseButton b = some sl →
      (sl.status = "Available" ↔
        (b.classes.contains "success" = true ∧
         pyInStr "Book Now" b.tooltip = true))) ∧
    (¬(b.classes.contains "success" = true ∧
        pyInStr "Book Now" b.tooltip = true) →
      b.spans ≠ [] →
      parseButton b ≠ none ∧
      ∀ sl, parseButton b = some sl → sl.status = "Unavailable") ∧
    (parseButton b = none ↔
      (¬(b.classes.contains "success" = true ∧
         pyInStr "Book Now" b.tooltip = true) ∧
       b.spans = [])) := by
  have hiff : isAvailableButton b = true ↔
      (b.classes.contains "success" = true ∧
       pyInStr "Book Now" b.tooltip = true) := by
    simp [isAvailableButton]
  rw [parseButton_eq]
  cases hav : isAvailableButton b
  · have hno : ¬(b.classes.contains "success" = true ∧
        pyInStr "Book Now" b.tooltip = true) := by
      rw [← hiff, hav]
      simp
    cases hsp : b.spans.head? with
    | none =>
      refine ⟨?_, ?_, ?_⟩
      · intro sl hsl
        simp at hsl
      · intro hn hne
        exact absurd (List.head?_eq_none_iff.mp hsp) hne
      · simp only [Bool.false_eq_true, if_false, hsp]
        exact iff_of_true (by trivial)
          ⟨hno, List.head?_eq_none_iff.mp hsp⟩
    | some t =>
      refine ⟨?_, ?_, ?_⟩
      · intro sl hsl
        simp only [Bool.false_eq_true, if_false, hsp] at hsl
        obtain rfl := Option.some.inj hsl
        exact ⟨fun hx => absurd hx (by simp), fun hx => absurd hx hno⟩
      · intro hn hne
        constructor
        · simp only [Bool.false_eq_true, if_false, hsp]
          simp
        · intro sl hsl
          simp only [Bool.false_eq_true, if_false, hsp] at hsl
          obtain rfl := Option.some.inj hsl
          rfl
      · simp only [Bool.false_eq_true, if_false, hsp]
        refine ⟨fun hx => absurd hx (by simp), ?_⟩
        rintro ⟨-, hnil⟩
        rw [hnil] at hsp
        simp at hsp
  · refine ⟨?_, ?_, ?_⟩
    · intro sl hsl
      simp only [if_true] at hsl
      obtain rfl := Option.some.inj hsl
      exact iff_of_true rfl (hiff.mp hav)
    · intro hn
      exact absurd (hiff.mp hav) hn
    · simp only [if_true]
      refine ⟨fun hx => absurd hx (by simp), ?_⟩
      rintro ⟨hno, -⟩
      exact absurd (hiff.mp hav) hno

/-- C5 witness: the concrete unavailable button yields an `"Unavailable"`
slot, and the available button's slot satisfies the availability iff. -/
theorem claim_C5_witness :
    (parseButton unavailBtn ≠ none ∧
      TimeSlot.status ⟨"2:00 pm", "3:00 pm", "Unavailable"⟩ =
        "Unavailable") ∧
    (TimeSlot.status ⟨"8:00 am", "9:00 am", "Available"⟩ = "Available" ↔
      (availBtn.classes.contains "success" = true ∧
       pyInStr "Book Now" availBtn.tooltip = true)) :=
  ⟨⟨((claim_C5 unavailBtn).2.1 (by decide) (by decide)).1,
    ((claim_C5 unavailBtn).2.1 (by decide) (by decide)).2
      ⟨"2:00 pm", "3:00 pm", "Unavailable"⟩ (by decide)⟩,
   (claim_C5 availBtn).1 ⟨"8:00 am", "9:00 am", "Available"⟩ (by decide)⟩

/-- C6: with the separator present, the slot times are the trimmed texts
around the first `" - "`; with it absent, the whole trimmed text is the
start time and the end time is empty; the slot status never depends on the
text, only on the button classification. -/
theorem claim_C6 :
    (∀ (t : String) (p s : List Char), t.data = p ++ timeSep ++ s →
      (∀ p' s', t.data = p' ++ timeSep ++ s' → p.length ≤ p'.length) →
      parseTimeRange t = (pyStrip (String.mk p), pyStrip (String.mk s))) ∧
    (∀ t : String, (∀ p s, t.data ≠ p ++ timeSep ++ s) →
      parseTimeRange t = (pyStrip t, "")) ∧
    (∀ (b : CartButton) (sl : TimeSlot), parseButton b = some sl →
      sl.status = if isAvailableButton b then "Available" else "Unavailable")
    := by
  refine ⟨?_, ?_, ?_⟩
  · intro t p s heq hmin
    have hsome := splitFirst_isSome timeSep p s t.data heq
    obtain ⟨⟨p0, s0⟩, h0⟩ : ∃ ps, splitFirst timeSep t.data = some ps :=
      Option.isSome_iff_exists.mp hsome
    have hd := splitFirst_decomp timeSep t.data p0 s0 h0
    have hle1 := splitFirst_min timeSep t.data p0 s0 h0 p s heq
    have hle2 := hmin p0 s0 hd
    have hlen : p0.length = p.length := le_antisymm hle1 hle2
    have heq2 : p0 ++ (timeSep ++ s0) = p ++ (timeSep ++ s) := by
      rw [← List.append_assoc, ← List.append_assoc, ← hd, ← heq]
    obtain ⟨hp, hs⟩ := List.append_inj heq2 hlen
    have hs2 : s0 = s := List.append_cancel_left hs
    simp only [parseTimeRange, h0]
    rw [hp, hs2]
  · intro t hno
    cases hsf : splitFirst timeSep t.data with
    | none => simp only [parseTimeRange, hsf]
    | some ps =>
      exact absurd (splitFirst_decomp timeSep t.data ps.1 ps.2 (by simpa using hsf))
        (hno ps.1 ps.2)
  · intro b sl h
    rw [parseButton_eq] at h
    by_cases hav : isAvailableButton b = true
    · rw [if_pos hav] at h
      obtain rfl := Option.some.inj h
      rw [if_pos hav]
    · rw [if_neg hav] at h
      cases hsp : b.spans.head? with
      | none =>
        rw [hsp] at h
        exact absurd h (by simp)
      | some tx =>
        rw [hsp] at h
        obtain rfl := Option.some.inj h
        rw [if_neg hav]

/-- C6 witness: the canonical well-formed time range. -/
theorem claim_C6_witness :
    parseTimeRange "8:00 am - 9:00 am" =
      (pyStrip (String.mk ("8:00 am").data),
       pyStrip (String.mk ("9:00 am").data)) :=
  claim_C6.1 "8:00 am - 9:00 am" ("8:00 am").data ("9:00 am").data
    (by decide)
    (splitFirst_min timeSep (String.data "8:00 am - 9:00 am")
      ("8:00 am").data ("9:00 am").data (by decide))

/-- C7: rows with fewer than four label-cells yield no court; rows with at
least four yield a court whose missing optional fields take their defaults
(`"Unknown Court"`, `"Unknown Location"`, sport inferred from the name,
`price = none`). -/
theorem claim_C7 (today : String) (row : Tr) (sib : Option Tr) :
    ((List.filter (hasClass "label-cell") row.tds).length < 4 →
      parseCourtRow today row sib = none) ∧
    (4 ≤ (List.filter (hasClass "label-cell") row.tds).length →
      parseCourtRow today row sib ≠ none ∧
      ∀ c, parseCourtRow today row sib = some c →
        (findByTitle row "Facility Description" = none →
          c.name = "Unknown Court") ∧
        (findByTitle row "Location Description" = none →
          c.location = "Unknown Location") ∧
        (findByTitle row "Class Description" = none →
          c.sport_type =
            if pyInStr "tennis" (pyLower c.name) then "Tennis"
            else "Pickleball") ∧
        (findByTitle row "Price" = none → c.price = none)) := by
  constructor
  · intro hlt
    simp [parseCourtRow, hlt]
  · intro hge
    have hlt : ¬(List.filter (hasClass "label-cell") row.tds).length < 4 :=
      not_lt.mpr hge
    constructor
    · simp only [parseCourtRow]
      rw [if_neg hlt]
      simp
    · intro c hc
      simp only [parseCourtRow] at hc
      rw [if_neg hlt] at hc
      obtain rfl := Option.some.inj hc
      have hempty : pyInStr "tennis" (pyLower "") = false := by decide
      refine ⟨fun hN => ?_, fun hL => ?_, fun hC => ?_, fun hP => ?_⟩
      · simp [hN]
      · simp [hL]
      · simp [hC, hempty]
      · simp [hP]

/-- C7 witness: a four-cell row with no labelled cells takes every default. -/
theorem claim_C7_witness :
    bareCourt.name = "Unknown Court" ∧
    bareCourt.location = "Unknown Location" ∧ bareCourt.price = none :=
  let h := ((claim_C7 "01/01/2025" bareRow none).2 (by decide)).2 bareCourt
    (by decide)
  ⟨h.1 (by decide), h.2.1 (by decide), h.2.2.2 (by decide)⟩

/-- C8: extraction is total — a document with no result table yields `[]`,
and a row that produces no court is simply skipped, leaving the remaining
rows' extraction unchanged. -/
theorem claim_C8 :
    (∀ today soup, findCourtTables soup = [] →
      parse_court_data today soup = []) ∧
    (∀ (today : String) (row : Tr) (rest : List Tr),
      parseCourtRow today row rest.head? = none →
      parseRows today (row :: rest) = parseRows today rest) := by
  constructor
  · intro today soup h
    unfold parse_court_data
    rw [h]
    rfl
  · intro today row rest h
    rw [parseRows]
    split
    · rfl
    · rw [h]

/-- C8 witness: a document whose only table has a different id. -/
theorem claim_C8_witness : parse_court_data "01/01/2025" soupNoTables = [] :=
  claim_C8.1 "01/01/2025" soupNoTables (by decide)

/-- C9: session bootstrap succeeds exactly on a response status below 500,
and a failed bootstrap makes the fetch return the empty result immediately
(the script of page responses is never consumed — no retry). -/
theorem claim_C9 :
    (∀ init, initializeSession init = true ↔
      ∃ status, init = InitResult.resp status ∧ status < 500) ∧
    (∀ (today : String) (d sport : Option String) (init : InitResult)
        (script : List (TokenResult × PageResult)),
      initializeSession init = false →
      fetch_courts_with_html today d sport init script = ([], "")) := by
  constructor
  · intro init
    cases init with
    | resp status =>
      constructor
      · intro h
        exact ⟨status, rfl, by simpa [initializeSession] using h⟩
      · rintro ⟨st, he, hlt⟩
        cases he
        simpa [initializeSession] using hlt
    | exn =>
      constructor
      · intro h
        simp [initializeSession] at h
      · rintro ⟨st, he, -⟩
        cases he
  · intro today d sport init script h
    unfold fetch_courts_with_html fetchRun
    rw [h]
    rfl

/-- C9 witness: a 500 bootstrap response. -/
theorem claim_C9_witness :
    fetch_courts_with_html "01/01/2025" none none (InitResult.resp 500)
      [(tokOk, PageResult.resp 200 "h1" soupAA)] = ([], "") :=
  claim_C9.2 "01/01/2025" none none (InitResult.resp 500)
    [(tokOk, PageResult.resp 200 "h1" soupAA)] (by decide)

/-- C10: a failed token fetch (non-200 page, missing input element, missing
or empty value, or an exception) yields the empty-string token; the search
request is still issued with that token in its params, and neither the
courts accumulated by the page step nor the continue/stop decision depend
on the token. -/
theorem claim_C10 :
    (∀ (status : Nat) (input : Option (Option String)), status ≠ 200 →
      getCsrfToken (.resp status input) = "") ∧
    (∀ status : Nat, getCsrfToken (.resp status none) = "" ∧
      getCsrfToken (.resp status (some none)) = "" ∧
      getCsrfToken (.resp status (some (some ""))) = "") ∧
    (getCsrfToken .exn = "") ∧
    (∀ (today : String) (d : Option String) (bt : String)
        (tok : TokenResult) (pageNum : Nat),
      (buildSearchParams d today bt tok pageNum).csrf_token =
        getCsrfToken tok) ∧
    (∀ today d pageNum st tok status html soup,
      (stepState (fetchStep today d pageNum st
          (tok, PageResult.resp status html soup))).reqs =
        st.reqs ++ [buildSearchParams d today "08:00 am" tok pageNum]) ∧
    (∀ today d pageNum st tok tok' pres,
      (stepState (fetchStep today d pageNum st (tok, pres))).courts =
        (stepState (fetchStep today d pageNum st (tok', pres))).courts ∧
      stepIsNext (fetchStep today d pageNum st (tok, pres)) =
        stepIsNext (fetchStep today d pageNum st (tok', pres))) := by
  refine ⟨?_, ?_, rfl, fun _ _ _ _ _ => rfl, ?_, ?_⟩
  · intro status input h
    simp [getCsrfToken, h]
  · intro status
    refine ⟨?_, ?_, ?_⟩ <;> simp [getCsrfToken, pyTruthyStr]
  · intro today d pageNum st tok status html soup
    simp only [fetchStep]
    repeat' split <;> try rfl
  · intro today d pageNum st tok tok' pres
    cases pres with
    | exn => exact ⟨rfl, rfl⟩
    | resp status html soup =>
      constructor <;>
        (simp only [fetchStep]; repeat' split <;> try rfl)

/-- C10 witness: a 404 token page, then a normal results page. -/
theorem claim_C10_witness :
    getCsrfToken (TokenResult.resp 404 none) = "" :=
  claim_C10.1 404 none (by decide)

/-- C2 counterexample: a fetch whose second page hits a fatal 403 does NOT
yield an empty result — the page-1 court is returned. -/
theorem claim_C2_counterexample :
    (fetch_courts_with_html "01/01/2025" none none (InitResult.resp 200)
      [(tokOk, PageResult.resp 200 "h1" soupA),
       (tokOk, PageResult.resp 403 "h2" soupA)]).1 ≠ [] := by decide

/-- C2 (amended): a fatal page error (403, any other non-200 status, or a
network exception) terminates pagination at once — the remaining script is
never consumed and the aggregate is unchanged — so the overall fetch
returns the empty result exactly when the error hit the first page. -/
theorem claim_C2_amended (today : String) (d : Option String)
    (rest : List (TokenResult × PageResult)) (pageNum : Nat) (st : LoopState)
    (tok : TokenResult) (status : Nat) (html : String) (soup : Soup)
    (h200 : status ≠ 200) :
    (fetchLoop today d ((tok, PageResult.resp status html soup) :: rest)
        pageNum st =
      { st with reqs := st.reqs ++
          [buildSearchParams d today "08:00 am" tok pageNum] }) ∧
    (fetchLoop today d ((tok, PageResult.exn) :: rest) pageNum st = st) ∧
    (∀ (sport : Option String) (init : InitResult),
      initializeSession init = true →
      fetch_courts_with_html today d sport init
        ((tok, PageResult.resp status html soup) :: rest) = ([], "") ∧
      fetch_courts_with_html today d sport init
        ((tok, PageResult.exn) :: rest) = ([], "")) := by
  have hbeq : ¬((status == 200) = true) := by simpa using h200
  have hstep : ∀ (pn : Nat) (s : LoopState),
      fetchStep today d pn s (tok, PageResult.resp status html soup) =
        StepOut.halt { s with reqs := s.reqs ++
          [buildSearchParams d today "08:00 am" tok pn] } := by
    intro pn s
    simp only [fetchStep]
    rw [if_neg hbeq]
    split <;> rfl
  refine ⟨?_, rfl, ?_⟩
  · rw [fetchLoop, hstep pageNum st]
  · intro sport init hinit
    constructor
    · simp only [fetch_courts_with_html, fetchRun, hinit, Bool.not_true,
        Bool.false_eq_true, if_false]
      rw [fetchLoop, hstep 1 ⟨[], [], []⟩]
      rfl
    · simp only [fetch_courts_with_html, fetchRun, hinit, Bool.not_true,
        Bool.false_eq_true, if_false]
      rfl

/-- C2 witness: a 403 on the very first page yields the empty result. -/
theorem claim_C2_witness :
    fetch_courts_with_html "01/01/2025" none none (InitResult.resp 200)
      [(tokOk, PageResult.resp 403 "h" soupA)] = ([], "") :=
  ((claim_C2_amended "01/01/2025" none [] 1 ⟨[], [], []⟩ tokOk 403 "h" soupA
    (by decide)).2.2 none (InitResult.resp 200) (by decide)).1

/-- C3 counterexample: after page 1 = `[A]`, page 2 = `[A, A, B]` has a
duplicate-*court* ratio of 2/3 > 50% (the claim's numerator), so the claim
mandates stopping with aggregate `[A]`; the code counts *distinct* duplicate
names (1 of 3, ≤ 50%), continues, and appends `B`. -/
theorem claim_C3_counterexample :
    specDupCourtCount ["A"] (parse_court_data "01/01/2025" soupAAB) = 2 ∧
    dupCount ["A"] (parse_court_data "01/01/2025" soupAAB) = 1 ∧
    2 * specDupCourtCount ["A"] (parse_court_data "01/01/2025" soupAAB) >
      (parse_court_data "01/01/2025" soupAAB).length ∧
    (fetchRun "01/01/2025" none none (InitResult.resp 200)
        [(tokOk, PageResult.resp 200 "h1" soupA),
         (tokOk, PageResult.resp 200 "h2" soupAAB)]).courts.map
          (fun c => c.name) = ["A", "B"] := by decide

/-- C3 (amended): the stop ratio's numerator is the number of *distinct*
names on the page that already appeared on an earlier page; for a later
page, the controller halts (aggregate unchanged) when that ratio exceeds
50%, and otherwise the step's aggregate is the old one plus exactly the
courts whose names were not yet seen. -/
theorem claim_C3_amended (today : String) (d : Option String) (pageNum : Nat)
    (st : LoopState) (tok : TokenResult) (html : String) (soup : Soup)
    (hpage : pageNum > 1) (hne : parse_court_data today soup ≠ []) :
    (2 * dupCount (st.courts.map (fun c => c.name))
          (parse_court_data today soup) >
        (parse_court_data today soup).length →
      fetchStep today d pageNum st (tok, PageResult.resp 200 html soup) =
        StepOut.halt { st with
          html := st.html ++ [html],
          reqs := st.reqs ++
            [buildSearchParams d today "08:00 am" tok pageNum] }) ∧
    (2 * dupCount (st.courts.map (fun c => c.name))
          (parse_court_data today soup) ≤
        (parse_court_data today soup).length →
      (stepState (fetchStep today d pageNum st
          (tok, PageResult.resp 200 html soup))).courts =
        st.courts ++ (parse_court_data today soup).filter
          (fun c => !((st.courts.map (fun c => c.name)).contains c.name))) := by
  have hie : (parse_court_data today soup).isEmpty = false := by
    simpa [List.isEmpty_iff] using hne
  constructor
  · intro hgt
    have hlen : 0 < (parse_court_data today soup).length :=
      List.length_pos.mpr hne
    have hdpos : 0 < dupCount (st.courts.map (fun c => c.name))
        (parse_court_data today soup) := by omega
    simp only [fetchStep]
    rw [if_pos (by decide : ((200 : Nat) == 200) = true)]
    rw [hie]
    simp only [Bool.false_eq_true, if_false]
    rw [if_pos ⟨hdpos, hpage, hgt⟩]
  · intro hle
    have hno : ¬(0 < dupCount (st.courts.map (fun c => c.name))
          (parse_court_data today soup) ∧ pageNum > 1 ∧
        2 * dupCount (st.courts.map (fun c => c.name))
            (parse_court_data today soup) >
          (parse_court_data today soup).length) := by
      rintro ⟨-, -, hgt⟩
      omega
    simp only [fetchStep]
    rw [if_pos (by decide : ((200 : Nat) == 200) = true)]
    rw [hie]
    simp only [Bool.false_eq_true, if_false]
    rw [if_neg hno]
    repeat' split <;> try rfl

/-- C3 witness: page 2 = `[A, B]` after an aggregate `[A]` appends only
`B`. -/
theorem claim_C3_witness :
    (stepState (fetchStep "01/01/2025" none 2 ⟨[courtA], ["h1"], []⟩
        (tokOk, PageResult.resp 200 "h2" soupAB))).courts =
      [courtA] ++ (parse_court_data "01/01/2025" soupAB).filter
        (fun c => !(([courtA].map (fun c => c.name)).contains c.name)) :=
  (claim_C3_amended "01/01/2025" none 2 ⟨[courtA], ["h1"], []⟩ tokOk "h2"
    soupAB (by decide) (by decide)).2 (by decide)

/-- C4 counterexample: two rows named `A` on the same page both survive —
the fetch aggregate contains two courts with the same name. -/
theorem claim_C4_counterexample :
    (fetchRun "01/01/2025" none none (InitResult.resp 200)
        [(tokOk, PageResult.resp 200 "h1" soupAA)]).courts.map
          (fun c => c.name) = ["A", "A"] := by decide

/-- C4 (amended): name-based deduplication applies across pages only: every
court present after a page step is either one of the previously aggregated
courts or has a name that no previously aggregated court bears (so two
equal-named rows arriving on the same page are both retained). -/
theorem claim_C4_amended (today : String) (d : Option String) (pageNum : Nat)
    (st : LoopState) (p : TokenResult × PageResult) (c : Court)
    (hc : c ∈ (stepState (fetchStep today d pageNum st p)).courts) :
    c ∈ st.courts ∨ c.name ∉ st.courts.map (fun x => x.name) := by
  obtain ⟨tok, pres⟩ := p
  cases pres with
  | exn => exact Or.inl hc
  | resp status html soup =>
    simp only [fetchStep] at hc
    repeat' split at hc
    all_goals simp only [stepState] at hc
    all_goals
      first
      | exact Or.inl hc
      | (rcases List.mem_append.mp hc with h1 | h2
         · exact Or.inl h1
         · have hpred := (List.mem_filter.mp h2).2
           rw [Bool.not_eq_true'] at hpred
           refine Or.inr fun hmem => ?_
           exact absurd hmem (by simpa using hpred))

/-- C4 witness: a previously aggregated court stays in the aggregate. -/
theorem claim_C4_witness :
    courtA ∈ (⟨[courtA], ["h1"], []⟩ : LoopState).courts ∨
    courtA.name ∉ (⟨[courtA], ["h1"], []⟩ : LoopState).courts.map
      (fun x => x.name) :=
  claim_C4_amended "01/01/2025" none 2 ⟨[courtA], ["h1"], []⟩
    (tokOk, PageResult.resp 200 "h2" soupAB) courtA (by decide)

end Doral
